import Mathlib

/-!
Stokvel ledger backend: payment approval, payment submission and loans.

A shallow embedding of the request handlers of `server.js` (Express + SQLite).

* The SQLite database is a `Store`: one list of rows per table, plus the
  AUTOINCREMENT counters of `sqlite_sequence` and the connection-level
  last insert rowid that `this.lastID` reads.
* `REAL` columns and JavaScript numbers are IEEE 754 binary64 values
  (`Double`): every addition, multiplication and division rounds to the
  nearest double, ties to even. The two zeros are not told apart. In the
  nullable column `balance`, NaN stands for NULL (SQLite stores a NaN result
  as NULL, and NULL + x is NULL).
* `CURRENT_TIMESTAMP` and `DATE(now)` are inputs of the handlers.
* Request bodies are taken as already decoded: amounts and terms as numbers,
  required text fields as strings, optional ones as `none` when absent.
* Every `db.run`, `db.get` and `db.all` takes a flag saying whether SQLite
  reports an error for that statement (I/O or constraint, such as a NaN bound
  to a NOT NULL column); a failed statement leaves the tables as they were.
* A `db.run` that is given no callback and fails raises an `error` event
  nobody handles, which stops the process: the statements still queued
  behind it never run.
* A JSON Web Token is represented by its decoded payload.
-/

namespace Stokvel

/-! ## IEEE 754 binary64 numbers -/

/-- A JavaScript number, or the value of a SQLite `REAL`: not-a-number, an
infinity, or the finite value `mant * 2 ^ exp`. Values are kept in the form
with `mant` odd, zero being `finite 0 0`. -/
inductive Double where
  | nan
  | posInf
  | negInf
  | finite (mant : Int) (exp : Int)
deriving DecidableEq

namespace Double

/-- Number of binary digits of `n`, with `fuel` halvings allowed. -/
def bitLengthAux : Nat → Nat → Nat
  | 0, _ => 0
  | fuel + 1, n => if n = 0 then 0 else bitLengthAux fuel (n / 2) + 1

/-- Number of binary digits of `n`: the least `k` with `n < 2 ^ k`. -/
def bitLength (n : Nat) : Nat :=
  bitLengthAux n n

/-- Moves factors of two from `m` to the exponent, at most `fuel` of them. -/
def stripTwos : Nat → Nat → Int → Nat × Int
  | 0, m, e => (m, e)
  | fuel + 1, m, e => if m % 2 = 0 then stripTwos fuel (m / 2) (e + 1) else (m, e)

/-- The double of value `m * 2 ^ e`, negated when `neg`, for a value that needs
no rounding. -/
def ofParts (neg : Bool) (m : Nat) (e : Int) : Double :=
  if m = 0 then finite 0 0
  else
    let r := stripTwos (bitLength m) m e
    finite (if neg then -(r.1 : Int) else (r.1 : Int)) r.2

/-- Rounding of the exact value `(n / d) * 2 ^ e` (with `d` positive), negated
when `neg`, to the nearest double, ties to even: 53 significant bits, no
exponent below -1074, and an infinity from `2 ^ 1024` on. -/
def roundRatio (neg : Bool) (n d : Nat) (e : Int) : Double :=
  if n = 0 then finite 0 0
  else
    let t : Int := (bitLength n : Int) - (bitLength d : Int)
    let ge : Bool :=
      if 0 ≤ t then decide (d * 2 ^ t.toNat ≤ n) else decide (d ≤ n * 2 ^ (-t).toNat)
    let l : Int := if ge then t else t - 1
    let p : Int := max (l + e - 52) (-1074)
    let s : Int := e - p
    let num : Nat := if 0 ≤ s then n * 2 ^ s.toNat else n
    let den : Nat := if 0 ≤ s then d else d * 2 ^ (-s).toNat
    let q : Nat := num / den
    let r : Nat := num % den
    let m : Nat :=
      if 2 * r < den then q
      else if den < 2 * r then q + 1
      else if q % 2 = 0 then q else q + 1
    if 1024 < (bitLength m : Int) + p then (if neg then negInf else posInf)
    else ofParts neg m p

/-- Whether the value is negative. -/
def isNeg : Double → Bool
  | negInf => true
  | finite m _ => decide (m < 0)
  | _ => false

/-- Whether the value is zero. -/
def isZero : Double → Bool
  | finite m _ => decide (m = 0)
  | _ => false

/-- Whether the value is a finite number. -/
def isFinite : Double → Bool
  | finite _ _ => true
  | _ => false

/-- The operator `+` on numbers. -/
def add : Double → Double → Double
  | nan, _ => nan
  | _, nan => nan
  | posInf, negInf => nan
  | negInf, posInf => nan
  | posInf, _ => posInf
  | _, posInf => posInf
  | negInf, _ => negInf
  | _, negInf => negInf
  | finite m1 e1, finite m2 e2 =>
    let e := min e1 e2
    let m : Int := m1 * 2 ^ (e1 - e).toNat + m2 * 2 ^ (e2 - e).toNat
    roundRatio (decide (m < 0)) m.natAbs 1 e

/-- The operator `*` on numbers. -/
def mul : Double → Double → Double
  | nan, _ => nan
  | _, nan => nan
  | finite m1 e1, finite m2 e2 =>
    roundRatio (decide (m1 * m2 < 0)) (m1 * m2).natAbs 1 (e1 + e2)
  | a, b =>
    if isZero a || isZero b then nan
    else if isNeg a != isNeg b then negInf else posInf

/-- The operator `/` on numbers; a zero divisor is taken as positive zero. -/
def div : Double → Double → Double
  | nan, _ => nan
  | _, nan => nan
  | finite m1 e1, finite m2 e2 =>
    if m2 = 0 then
      if m1 = 0 then nan else if m1 < 0 then negInf else posInf
    else roundRatio (decide (m1 < 0) != decide (m2 < 0)) m1.natAbs m2.natAbs (e1 - e2)
  | finite _ _, _ => finite 0 0
  | a, finite m2 _ => if isNeg a != decide (m2 < 0) then negInf else posInf
  | _, _ => nan

/-- Unary minus. -/
def neg : Double → Double
  | nan => nan
  | posInf => negInf
  | negInf => posInf
  | finite m e => finite (-m) e

/-- The comparison `<=` on numbers; false when an operand is NaN. -/
def le : Double → Double → Bool
  | nan, _ => false
  | _, nan => false
  | negInf, _ => true
  | _, posInf => true
  | posInf, _ => false
  | _, negInf => false
  | finite m1 e1, finite m2 e2 =>
    let e := min e1 e2
    decide (m1 * 2 ^ (e1 - e).toNat ≤ m2 * 2 ^ (e2 - e).toNat)

/-- The exact rational value of a finite double (0 for the others). -/
def toRat : Double → ℚ
  | finite m e => (m : ℚ) * (2 : ℚ) ^ e
  | _ => 0

/-- A decimal integer literal denotes the nearest double. -/
instance instOfNat (n : Nat) : OfNat Double n := ⟨roundRatio false n 1 0⟩

/-- A decimal literal with a fraction or an exponent denotes the nearest double. -/
instance instOfScientific : OfScientific Double :=
  ⟨fun m s e =>
    if s then roundRatio false m (10 ^ e) 0 else roundRatio false (m * 10 ^ e) 1 0⟩

instance instNeg : Neg Double := ⟨neg⟩

instance instLE : LE Double := ⟨fun a b => le a b = true⟩

instance instDecidableLE (a b : Double) : Decidable (a ≤ b) :=
  inferInstanceAs (Decidable (le a b = true))

end Double

/-! ## Tables -/

/-- Row of the `users` table. -/
structure User where
  id : Nat
  name : String
  email : String
  phone : String
  password : String
  role : String
  tier : Int
  shares : Int
  balance : Double
  joined : String
  lastPayment : Option String
  status : String
  approved : Bool
  createdAt : String
deriving DecidableEq

/-- Row of the `contributions` table. -/
structure Contribution where
  id : Nat
  memberId : Nat
  amount : Double
  method : String
  reference : Option String
  proofPath : Option String
  date : String
  recordedBy : Option String
  status : String
  createdAt : String
deriving DecidableEq

/-- Row of the `loans` table. -/
structure Loan where
  id : Nat
  memberId : Nat
  amount : Double
  term : Double
  interest : Double
  outstanding : Double
  nextPayment : Option String
  status : String
  applicationDate : String
  applicationDetails : Option String
  createdAt : String
deriving DecidableEq

/-- Row of the `pendingPayments` table. -/
structure PendingPayment where
  id : Nat
  memberId : Nat
  memberName : String
  amount : Double
  method : String
  reference : Option String
  date : String
  notes : Option String
  proofPath : Option String
  status : String
  submittedDate : String
  confirmedBy : Option String
  confirmedDate : Option String
deriving DecidableEq

/-- The database: the four tables the handlers below touch, the
AUTOINCREMENT counters kept in `sqlite_sequence`, and the last insert rowid of
the connection. -/
structure Store where
  users : List User
  contributions : List Contribution
  loans : List Loan
  pendingPayments : List PendingPayment
  seqContributions : Nat
  seqLoans : Nat
  seqPendingPayments : Nat
  lastID : Nat
deriving DecidableEq

/-! ## Requests and responses -/

/-- The decoded token payload that `authenticateToken` stores in `req.user`.
`name` is the value of the property access `req.user.name`: `none` when the
payload has no such property. -/
structure ReqUser where
  id : Nat
  role : String
  name : Option String
deriving DecidableEq

/-- The `user` object of the login response. -/
structure UserView where
  id : Nat
  name : String
  email : String
  role : String
  tier : Int
  shares : Int
  balance : Double
deriving DecidableEq

/-- What a handler sends back. -/
inductive Response where
  | error (status : Nat) (error : String)
  | message (message : String)
  | created (message : String) (rowId : Nat)
  | session (token : ReqUser) (user : UserView)
  | loans (rows : List Loan)
  | payments (rows : List PendingPayment)
deriving DecidableEq

/-- The `Authorization` header as `authenticateToken` sees it: no token, a
token that `jwt.verify` rejects, or a token that verifies to a payload. -/
inductive Credential where
  | missing
  | invalid
  | valid (payload : ReqUser)
deriving DecidableEq

/-- Fields of the body of `POST /api/submit-payment`. -/
structure PaymentBody where
  amount : Double
  method : String
  reference : Option String
  date : String
  notes : Option String
deriving DecidableEq

/-- Fields of the body of `POST /api/loans`; `applicationDetails` is the
result of `JSON.stringify` on the submitted details. -/
structure LoanBody where
  amount : Double
  term : Double
  applicationDetails : Option String
deriving DecidableEq

/-- Which statements of `POST /api/approve-payment/:id` SQLite fails. -/
structure ApproveFaults where
  selectPayment : Bool
  updatePayment : Bool
  insertContribution : Bool
  updateUser : Bool
deriving DecidableEq

/-- No statement fails. -/
def ApproveFaults.none : ApproveFaults :=
  { selectPayment := false, updatePayment := false,
    insertContribution := false, updateUser := false }

/-! ## SQL statements -/

/-- Rowid given by an `INTEGER PRIMARY KEY AUTOINCREMENT` column: one more than
the largest rowid ever used in the table. -/
def nextRowId (seq : Nat) (ids : List Nat) : Nat :=
  max seq (ids.foldr max 0) + 1

/-- A `db.run` that is given no callback: the statement `w` is applied, or
SQLite fails it and the `error` event, which nobody handles, stops the
process: there is no database to go on with. -/
def dbRun (fail : Bool) (w : Store → Store) (s : Store) : Option Store :=
  if fail then Option.none else some (w s)

/-- The statements queued inside one `db.serialize` block: they run one after
the other, each committed on its own (no transaction is opened). When one
fails the process stops, the statements still queued never run, and the
database stays as the statements before it left it. -/
def runSerialized : List (Bool × (Store → Store)) → Store → Store
  | [], s => s
  | (fail, w) :: rest, s =>
    match dbRun fail w s with
    | Option.none => s
    | some s1 => runSerialized rest s1

/-- Statement `SELECT * FROM pendingPayments WHERE id = ?` through `db.get`: the first
matching row, or nothing when there is none or the statement fails. -/
def getPayment (fail : Bool) (s : Store) (id : Nat) : Option PendingPayment :=
  if fail then Option.none else s.pendingPayments.find? (fun p => p.id == id)

/-- Statement `UPDATE pendingPayments SET status = ?, confirmedBy = ?,
confirmedDate = CURRENT_TIMESTAMP WHERE id = ?`. -/
def updatePaymentStatus (status : String) (confirmedBy : Option String) (now : String)
    (id : Nat) (s : Store) : Store :=
  { s with pendingPayments := s.pendingPayments.map (fun p =>
      if p.id == id then
        { p with status := status, confirmedBy := confirmedBy, confirmedDate := some now }
      else p) }

/-- Statement `INSERT INTO contributions (memberId, amount, method, reference, proofPath,
date, recordedBy, status) VALUES (?, ?, ?, ?, ?, ?, ?, confirmed)`. -/
def insertContribution (memberId : Nat) (amount : Double) (method : String)
    (reference proofPath : Option String) (date : String) (recordedBy : Option String)
    (now : String) (s : Store) : Store :=
  let rowId := nextRowId s.seqContributions (s.contributions.map (fun c => c.id))
  { s with
    contributions := s.contributions ++
      [{ id := rowId, memberId := memberId, amount := amount, method := method,
         reference := reference, proofPath := proofPath, date := date,
         recordedBy := recordedBy, status := "confirmed", createdAt := now }]
    seqContributions := rowId
    lastID := rowId }

/-- Statement `UPDATE users SET balance = balance + ?, lastPayment = ?, status = ?
WHERE id = ?`; SQLite adds the two `REAL` values as doubles. -/
def updateUserBalance (amount : Double) (lastPayment : String) (status : String) (id : Nat)
    (s : Store) : Store :=
  { s with users := s.users.map (fun u =>
      if u.id == id then
        { u with balance := Double.add u.balance amount, lastPayment := some lastPayment,
                 status := status }
      else u) }

/-- One row of `INSERT INTO pendingPayments (...) SELECT id, name, ?, ?, ?, ?, ?,
?, pending FROM users WHERE id = ?`, for the selected user `u`. -/
def insertPendingPayment (body : PaymentBody) (proofPath : Option String) (now : String)
    (s : Store) (u : User) : Store :=
  let rowId := nextRowId s.seqPendingPayments (s.pendingPayments.map (fun p => p.id))
  { s with
    pendingPayments := s.pendingPayments ++
      [{ id := rowId, memberId := u.id, memberName := u.name, amount := body.amount,
         method := body.method, reference := body.reference, date := body.date,
         notes := body.notes, proofPath := proofPath, status := "pending",
         submittedDate := now, confirmedBy := Option.none, confirmedDate := Option.none }]
    seqPendingPayments := rowId
    lastID := rowId }

/-- The whole `INSERT ... SELECT ... FROM users WHERE id = ?`: one row per
selected user. -/
def insertPendingPayments (body : PaymentBody) (proofPath : Option String) (now : String)
    (callerId : Nat) (s : Store) : Store :=
  (s.users.filter (fun u => u.id == callerId)).foldl
    (insertPendingPayment body proofPath now) s

/-- Statement `INSERT INTO loans (memberId, amount, term, interest, outstanding,
applicationDate, applicationDetails, status) VALUES (?, ?, ?, ?, ?, DATE(now), ?,
pending)`. -/
def insertLoan (memberId : Nat) (amount term interest outstanding : Double) (today : String)
    (applicationDetails : Option String) (now : String) (s : Store) : Store :=
  let rowId := nextRowId s.seqLoans (s.loans.map (fun l => l.id))
  { s with
    loans := s.loans ++
      [{ id := rowId, memberId := memberId, amount := amount, term := term,
         interest := interest, outstanding := outstanding, nextPayment := Option.none,
         status := "pending", applicationDate := today,
         applicationDetails := applicationDetails, createdAt := now }]
    seqLoans := rowId
    lastID := rowId }

/-! ## Handlers -/

/-- The `authenticateToken` middleware in front of a handler `next`. -/
def authenticateToken (c : Credential) (next : ReqUser → Store × Response) (s : Store) :
    Store × Response :=
  match c with
  | .missing => (s, .error 401 "Access denied")
  | .invalid => (s, .error 403 "Invalid token")
  | .valid user => next user

/-- The payload signed by `POST /api/login`: `{ id: user.id, role: user.role }`. -/
def jwtSign (user : User) : ReqUser :=
  { id := user.id, role := user.role, name := Option.none }

/-- Handler of `POST /api/login`; `compare` is `bcrypt.compare`. -/
def login (compare : String → String → Bool) (s : Store) (identifier password : String) :
    Response :=
  match s.users.find? (fun u => u.email == identifier || u.phone == identifier) with
  | Option.none => .error 400 "Invalid credentials"
  | some user =>
    if !user.approved then .error 403 "Account pending approval"
    else if !compare password user.password then .error 400 "Invalid credentials"
    else .session (jwtSign user)
      { id := user.id, name := user.name, email := user.email, role := user.role,
        tier := user.tier, shares := user.shares, balance := user.balance }

/-- Handler of `POST /api/submit-payment`, after authentication; `file` is `req.file.path`
when a proof was uploaded. -/
def submitPayment (fail : Bool) (now : String) (s : Store) (user : ReqUser)
    (body : PaymentBody) (file : Option String) : Store × Response :=
  let proofPath := file
  if fail then (s, .error 500 "Failed to submit payment")
  else
    let s1 := insertPendingPayments body proofPath now user.id s
    (s1, .created "Payment submitted" s1.lastID)

/-- Handler of `GET /api/pending-payments`, after authentication. -/
def listPendingPayments (fail : Bool) (s : Store) (user : ReqUser) : Response :=
  if user.role != "admin" && user.role != "treasurer" then .error 403 "Access denied"
  else if fail then .error 500 "Database error"
  else .payments (s.pendingPayments.filter (fun p => p.status == "pending"))

/-- Handler of `POST /api/approve-payment/:id`, after authentication. The three
writes are queued in one `db.serialize` block with no callback, and the
response is sent right after queueing them, before any of them has run. -/
def approvePayment (f : ApproveFaults) (now : String) (s : Store) (user : ReqUser)
    (id : Nat) : Store × Response :=
  if user.role != "admin" && user.role != "treasurer" then
    (s, .error 403 "Access denied")
  else
    match getPayment f.selectPayment s id with
    | Option.none => (s, .error 404 "Payment not found")
    | some payment =>
      (runSerialized
        [(f.updatePayment, updatePaymentStatus "confirmed" user.name now id),
         (f.insertContribution,
          insertContribution payment.memberId payment.amount payment.method
            payment.reference payment.proofPath payment.date user.name now),
         (f.updateUser,
          updateUserBalance payment.amount payment.date "current" payment.memberId)] s,
       .message "Payment approved")

/-- Handler of `POST /api/loans`, after authentication; `outstanding` is
computed in JavaScript, each operation rounding to a double. -/
def applyForLoan (fail : Bool) (now today : String) (s : Store) (user : ReqUser)
    (body : LoanBody) : Store × Response :=
  let interest : Double := 10
  let outstanding : Double :=
    Double.mul body.amount
      (Double.add 1 (Double.mul (Double.div interest 100) (Double.div body.term 52)))
  if fail then (s, .error 500 "Failed to submit loan")
  else
    let s1 := insertLoan user.id body.amount body.term interest outstanding today
      body.applicationDetails now s
    (s1, .created "Loan application submitted" s1.lastID)

/-- Handler of `GET /api/loans`, after authentication. -/
def listLoans (fail : Bool) (s : Store) (user : ReqUser) : Response :=
  let all := user.role == "admin" || user.role == "loan-officer"
  if fail then .error 500 "Database error"
  else if all then .loans s.loans
  else .loans (s.loans.filter (fun l => l.memberId == user.id))

/-- The route `POST /api/approve-payment/:id` with its middleware. -/
def approvePaymentRoute (f : ApproveFaults) (now : String) (s : Store) (c : Credential)
    (id : Nat) : Store × Response :=
  authenticateToken c (fun user => approvePayment f now s user id) s

/-! ## Ledger properties -/

/-- Exact sum, over the rationals, of the amounts of the Contribution rows of
member `memberId`. -/
def contributionTotal (s : Store) (memberId : Nat) : ℚ :=
  ((s.contributions.filter (fun c => c.memberId == memberId)).map
    (fun c => c.amount.toRat)).sum

/-- Reconciliation: every member balance is a finite number, the amounts of the
Contribution rows of that member are finite numbers, and the balance equals
their exact sum. -/
def Reconciled (s : Store) : Prop :=
  ∀ u ∈ s.users,
    u.balance.isFinite = true ∧
    (∀ c ∈ s.contributions, c.memberId = u.id → c.amount.isFinite = true) ∧
    u.balance.toRat = contributionTotal s u.id

instance (s : Store) : Decidable (Reconciled s) := by
  unfold Reconciled; infer_instance

/-- The double addition `a + b` loses nothing: `b` is finite, and the rounded
sum is finite and equal to the exact sum. -/
def AddExact (a b : Double) : Prop :=
  b.isFinite = true ∧ (Double.add a b).isFinite = true ∧
  (Double.add a b).toRat = a.toRat + b.toRat

instance (a b : Double) : Decidable (AddExact a b) := by
  unfold AddExact; infer_instance

/-- Primary key of `users`: no two rows share an id. -/
def UsersKeyed (s : Store) : Prop :=
  (s.users.map (fun u => u.id)).Nodup

instance (s : Store) : Decidable (UsersKeyed s) := by
  unfold UsersKeyed; infer_instance

/-! ## Sample data -/

/-- The seeded administrator. -/
def seedAdmin : User :=
  { id := 1, name := "Admin User", email := "admin@masonko.com", phone := "0821234567",
    password := "hash-admin", role := "admin", tier := 3, shares := 3, balance := 14400,
    joined := "2024-01-15", lastPayment := some "2026-01-13", status := "current",
    approved := true, createdAt := "2024-01-15 08:00:00" }

/-- An approved ordinary member. -/
def memberThabo : User :=
  { id := 3, name := "Thabo", email := "thabo@masonko.com", phone := "0843456789",
    password := "hash-thabo", role := "member", tier := 1, shares := 1, balance := 250,
    joined := "2025-03-01", lastPayment := some "2025-12-01", status := "late",
    approved := true, createdAt := "2025-03-01 08:00:00" }

/-- A payment of 500 submitted by the member and not yet reviewed. -/
def paymentOne : PendingPayment :=
  { id := 1, memberId := 3, memberName := "Thabo", amount := 500, method := "EFT",
    reference := some "REF-1", date := "2026-02-01", notes := Option.none,
    proofPath := some "uploads/1-proof.png", status := "pending",
    submittedDate := "2026-02-01 09:00:00", confirmedBy := Option.none,
    confirmedDate := Option.none }

/-- A reconciled database with one payment awaiting approval. -/
def sampleStore : Store :=
  { users := [seedAdmin, memberThabo]
    contributions :=
      [{ id := 1, memberId := 1, amount := 14400, method := "EFT", reference := Option.none,
         proofPath := Option.none, date := "2026-01-13", recordedBy := some "Admin User",
         status := "confirmed", createdAt := "2026-01-13 10:00:00" },
       { id := 2, memberId := 3, amount := 250, method := "cash", reference := Option.none,
         proofPath := Option.none, date := "2025-12-01", recordedBy := some "Admin User",
         status := "confirmed", createdAt := "2025-12-01 10:00:00" }]
    loans := []
    pendingPayments := [paymentOne]
    seqContributions := 2
    seqLoans := 0
    seqPendingPayments := 1
    lastID := 1 }

/-- The token payload login issues to the seeded administrator. -/
def adminToken : ReqUser := jwtSign seedAdmin

/-- The token payload login issues to the member. -/
def memberToken : ReqUser := jwtSign memberThabo

/-- The fault pattern of `f` with its three writes succeeding. -/
def ApproveFaults.writesOk (f : ApproveFaults) : ApproveFaults :=
  { selectPayment := f.selectPayment, updatePayment := false,
    insertContribution := false, updateUser := false }

/-- Only the Contribution insert fails. -/
def contributionInsertFails : ApproveFaults :=
  { selectPayment := false, updatePayment := false,
    insertContribution := true, updateUser := false }

/-- Only the payment status update fails. -/
def paymentUpdateFails : ApproveFaults :=
  { selectPayment := false, updatePayment := true,
    insertContribution := false, updateUser := false }

/-- Only the balance update fails. -/
def balanceUpdateFails : ApproveFaults :=
  { selectPayment := false, updatePayment := false,
    insertContribution := false, updateUser := true }

/-- The member with a balance of 0.1. -/
def memberTenth : User := { memberThabo with balance := 0.1 }

/-- A reconciled database where the member has paid 0.1 and a payment of 0.2
awaits approval. -/
def fractionStore : Store :=
  { users := [memberTenth]
    contributions :=
      [{ id := 1, memberId := 3, amount := 0.1, method := "cash", reference := Option.none,
         proofPath := Option.none, date := "2025-12-01", recordedBy := some "Admin User",
         status := "confirmed", createdAt := "2025-12-01 10:00:00" }]
    loans := []
    pendingPayments := [{ paymentOne with amount := 0.2 }]
    seqContributions := 1
    seqLoans := 0
    seqPendingPayments := 1
    lastID := 1 }

/-- A loan application of 200 over 13 weeks. -/
def loanBody13 : LoanBody :=
  { amount := 200, term := 13, applicationDetails := Option.none }

/-- A password check that accepts. -/
def acceptPassword : String → String → Bool := fun _ _ => true

/-- A submission with a negative amount and an empty method. -/
def badBody : PaymentBody :=
  { amount := -5, method := "", reference := Option.none, date := "2026-02-03",
    notes := Option.none }

/-- A second ordinary member, with no row of its own needed for listing. -/
def otherToken : ReqUser := { id := 4, role := "member", name := Option.none }

/-- A treasurer caller. -/
def treasurerToken : ReqUser := { id := 2, role := "treasurer", name := Option.none }

/-- A loan-officer caller. -/
def officerToken : ReqUser := { id := 5, role := "loan-officer", name := Option.none }

/-- A loan application of 1000 over 26 weeks. -/
def loanBody26 : LoanBody :=
  { amount := 1000, term := 26, applicationDetails := some "\x7b\x7d" }

/-! ## Lemmas on the statements and handlers -/

/-- Looking a key up in a table after an update that keeps keys is updating
the looked-up row. -/
theorem find_map_key {α : Type} (key : α → Nat) (g : α → α) (hg : ∀ a, key (g a) = key a)
    (k : Nat) (l : List α) :
    (l.map g).find? (fun a => key a == k) = (l.find? (fun a => key a == k)).map g := by
  induction l with
  | nil => rfl
  | cons a l ih =>
    simp only [List.map_cons, List.find?_cons, hg]
    cases h : (key a == k) <;> simp [ih]

/-- The role gate of the approval handler lets admin and treasurer through. -/
theorem approvePayment_of_approver (f : ApproveFaults) (now : String) (s : Store)
    (user : ReqUser) (id : Nat) (h : user.role = "admin" ∨ user.role = "treasurer") :
    approvePayment f now s user id =
      match getPayment f.selectPayment s id with
      | Option.none => (s, .error 404 "Payment not found")
      | some payment =>
        (runSerialized
          [(f.updatePayment, updatePaymentStatus "confirmed" user.name now id),
           (f.insertContribution,
            insertContribution payment.memberId payment.amount payment.method
              payment.reference payment.proofPath payment.date user.name now),
           (f.updateUser,
            updateUserBalance payment.amount payment.date "current" payment.memberId)] s,
         .message "Payment approved") := by
  unfold approvePayment
  rcases h with h | h <;> simp [h]

/-- The role gate of the approval handler stops every other role. -/
theorem approvePayment_of_other (f : ApproveFaults) (now : String) (s : Store)
    (user : ReqUser) (id : Nat) (h1 : user.role ≠ "admin") (h2 : user.role ≠ "treasurer") :
    approvePayment f now s user id = (s, .error 403 "Access denied") := by
  unfold approvePayment
  simp [h1, h2]

/-- Three queued writes none of which fails are applied in order. -/
theorem runSerialized_ok (w1 w2 w3 : Store → Store) (s : Store) :
    runSerialized [(false, w1), (false, w2), (false, w3)] s = w3 (w2 (w1 s)) := by
  simp [runSerialized, dbRun]

/-- An approval that finds payment `P` and whose writes all succeed. -/
theorem approvePayment_of_found (now : String) (s : Store) (user : ReqUser) (id : Nat)
    (P : PendingPayment) (h : user.role = "admin" ∨ user.role = "treasurer")
    (hP : s.pendingPayments.find? (fun p => p.id == id) = some P) :
    approvePayment ApproveFaults.none now s user id =
      (updateUserBalance P.amount P.date "current" P.memberId
        (insertContribution P.memberId P.amount P.method P.reference P.proofPath P.date
          user.name now (updatePaymentStatus "confirmed" user.name now id s)),
       .message "Payment approved") := by
  have hget : getPayment ApproveFaults.none.selectPayment s id = some P := by
    simp [getPayment, ApproveFaults.none, hP]
  rw [approvePayment_of_approver ApproveFaults.none now s user id h, hget]
  simp only [ApproveFaults.none, runSerialized_ok]

/-- Reconciliation only reads the users and contributions tables. -/
theorem reconciled_congr (s t : Store) (hu : t.users = s.users)
    (hc : t.contributions = s.contributions) (h : Reconciled s) : Reconciled t := by
  unfold Reconciled contributionTotal at *
  rw [hu, hc]
  exact h

/-- Appending one Contribution for a member and adding its amount to the
balance of the rows of that member keeps the ledger reconciled, when those
additions are exact. -/
theorem reconciled_credit (s : Store) (status : String) (who : Option String) (now : String)
    (id : Nat) (P : PendingPayment) (h : Reconciled s)
    (hx : ∀ u ∈ s.users, u.id = P.memberId → AddExact u.balance P.amount) :
    Reconciled
      (updateUserBalance P.amount P.date "current" P.memberId
        (insertContribution P.memberId P.amount P.method P.reference P.proofPath P.date
          who now (updatePaymentStatus status who now id s))) := by
  intro v hv
  simp only [updateUserBalance, insertContribution, updatePaymentStatus, List.mem_map] at hv
  obtain ⟨u, hu, rfl⟩ := hv
  obtain ⟨hfin, hcs, hb⟩ := h u hu
  by_cases hid : u.id = P.memberId
  · obtain ⟨hpf, haf, hae⟩ := hx u hu hid
    refine ⟨?_, ?_, ?_⟩
    · simpa [hid] using haf
    · intro c hc hcid
      simp only [updateUserBalance, insertContribution, updatePaymentStatus,
        List.mem_append, List.mem_singleton] at hc
      have hcid2 : c.memberId = u.id := by simpa [hid] using hcid
      rcases hc with hc | rfl
      · exact hcs c hc hcid2
      · exact hpf
    · simp [contributionTotal, updateUserBalance, insertContribution, updatePaymentStatus,
        List.filter_append, List.filter_cons, hid]
      rw [hae, hb]
      simp [contributionTotal, hid]
  · have hid2 : ¬ P.memberId = u.id := fun e => hid e.symm
    refine ⟨?_, ?_, ?_⟩
    · simpa [hid] using hfin
    · intro c hc hcid
      simp only [updateUserBalance, insertContribution, updatePaymentStatus,
        List.mem_append, List.mem_singleton] at hc
      have hcid2 : c.memberId = u.id := by simpa [hid] using hcid
      rcases hc with hc | rfl
      · exact hcs c hc hcid2
      · exact absurd hcid2 hid2
    · simp [contributionTotal, updateUserBalance, insertContribution, updatePaymentStatus,
        List.filter_append, List.filter_cons, hid, hid2]
      simpa [contributionTotal] using hb

/-- A token issued by login carries no name: its payload is id and role. -/
theorem login_token_name (compare : String → String → Bool) (s : Store)
    (identifier password : String) (token : ReqUser) (view : UserView)
    (h : login compare s identifier password = Response.session token view) :
    token.name = Option.none := by
  unfold login at h
  split at h
  · simp at h
  · split at h
    · simp at h
    · split at h
      · simp at h
      · simp only [Response.session.injEq] at h
        rw [← h.1]
        rfl

/-- With ids as a key, selecting the rows with the id of a row of the table
yields that row alone. -/
theorem filter_key_eq (l : List User) (u : User) (hk : (l.map (fun v => v.id)).Nodup)
    (hu : u ∈ l) : l.filter (fun v => v.id == u.id) = [u] := by
  induction l with
  | nil => simp at hu
  | cons a l ih =>
    simp only [List.map_cons, List.nodup_cons, List.mem_map, not_exists, not_and] at hk
    rcases List.mem_cons.mp hu with rfl | hmem
    · have hnone : l.filter (fun v => v.id == u.id) = [] := by
        rw [List.filter_eq_nil_iff]
        intro v hv hveq
        exact hk.1 v hv (by simpa using hveq)
      simp [List.filter_cons, hnone]
    · have hne : ¬ a.id = u.id := fun e => hk.1 u hmem e.symm
      simp [List.filter_cons, hne, ih hk.2 hmem]

/-- The insert of submitted payments touches neither users, contributions nor
loans, whatever rows are selected. -/
theorem foldl_insertPendingPayment_frame (body : PaymentBody) (proofPath : Option String)
    (now : String) (sel : List User) (s : Store) :
    (sel.foldl (insertPendingPayment body proofPath now) s).users = s.users ∧
    (sel.foldl (insertPendingPayment body proofPath now) s).contributions = s.contributions ∧
    (sel.foldl (insertPendingPayment body proofPath now) s).loans = s.loans := by
  induction sel generalizing s with
  | nil => exact ⟨rfl, rfl, rfl⟩
  | cons u sel ih =>
    simp only [List.foldl_cons]
    obtain ⟨h1, h2, h3⟩ := ih (insertPendingPayment body proofPath now s u)
    exact ⟨h1, h2, h3⟩

/-- When the caller is a row of a keyed users table, the submission inserts
exactly the one row built from it. -/
theorem submitPayment_of_member (now : String) (s : Store) (user : ReqUser)
    (body : PaymentBody) (file : Option String) (u : User)
    (hk : UsersKeyed s) (hu : u ∈ s.users) (hid : u.id = user.id) :
    submitPayment false now s user body file =
      (insertPendingPayment body file now s u,
       Response.created "Payment submitted" (insertPendingPayment body file now s u).lastID) := by
  have hsel : s.users.filter (fun v => v.id == user.id) = [u] := by
    rw [← hid]; exact filter_key_eq s.users u hk hu
  simp [submitPayment, insertPendingPayments, hsel]

/-- A loan application whose insert succeeds appends exactly this row. -/
theorem applyForLoan_loans (now today : String) (s : Store) (user : ReqUser)
    (body : LoanBody) :
    (applyForLoan false now today s user body).1.loans = s.loans ++
      [{ id := nextRowId s.seqLoans (s.loans.map (fun l => l.id)), memberId := user.id,
         amount := body.amount, term := body.term, interest := 10,
         outstanding := Double.mul body.amount
           (Double.add 1 (Double.mul (Double.div 10 100) (Double.div body.term 52))),
         nextPayment := Option.none, status := "pending", applicationDate := today,
         applicationDetails := body.applicationDetails, createdAt := now }] := by
  simp [applyForLoan, insertLoan]

/-- The doubles written 14400, 250, 500 and 750 have these exact values. -/
theorem toRat_samples :
    (14400 : Double).toRat = 14400 ∧ (250 : Double).toRat = 250 ∧
    (500 : Double).toRat = 500 ∧ (750 : Double).toRat = 750 := by
  have h1 : (14400 : Double) = Double.finite 225 6 := by decide
  have h2 : (250 : Double) = Double.finite 125 1 := by decide
  have h3 : (500 : Double) = Double.finite 125 2 := by decide
  have h4 : (750 : Double) = Double.finite 375 1 := by decide
  rw [h1, h2, h3, h4]
  norm_num [Double.toRat]

/-- Rounding on known values: a tie goes to the even neighbour (2^53 + 1 gives
2^53, 2^53 + 3 gives 2^53 + 4), 1/3 and 10/100 are the nearest doubles, and
0.1 * 3 rounds up. -/
theorem rounding_samples :
    Double.add (Double.finite 1 53) 1 = Double.finite 1 53 ∧
    Double.add (Double.finite 1 53) 3 = Double.finite 2251799813685249 2 ∧
    Double.div 1 3 = Double.finite 6004799503160661 (-54) ∧
    Double.div 10 100 = 0.1 ∧
    Double.mul 0.1 3 = Double.finite 1351079888211149 (-52) ∧
    Double.add 0.5 0.25 = 0.75 := by
  decide

/-- The doubles written 0.1 and 0.2, and their double sum. -/
theorem fraction_samples :
    (0.1 : Double) = Double.finite 3602879701896397 (-55) ∧
    (0.2 : Double) = Double.finite 3602879701896397 (-54) ∧
    Double.add 0.1 0.2 = Double.finite 1351079888211149 (-52) := by
  decide

/-! ## Claims -/

/-- C5: a caller whose role is neither treasurer nor admin is refused with
403 Access denied, and the database is left exactly as it was: no payment
changes status, no Contribution is appended, no member row changes. The same
holds for the route entered with a token that verifies to such a caller. -/
theorem approvePayment_forbidden (f : ApproveFaults) (now : String) (s : Store)
    (user : ReqUser) (id : Nat)
    (h1 : user.role ≠ "admin") (h2 : user.role ≠ "treasurer") :
    (approvePayment f now s user id).2 = Response.error 403 "Access denied" ∧
    (approvePayment f now s user id).1 = s ∧
    (approvePayment f now s user id).1.pendingPayments = s.pendingPayments ∧
    (approvePayment f now s user id).1.contributions = s.contributions ∧
    (approvePayment f now s user id).1.users = s.users ∧
    approvePaymentRoute f now s (Credential.valid user) id
      = (s, Response.error 403 "Access denied") := by
  simp only [approvePaymentRoute, authenticateToken]
  rw [approvePayment_of_other f now s user id h1 h2]
  exact ⟨rfl, rfl, rfl, rfl, rfl, rfl⟩

/-- Witness of C5: the member token is refused on the sample database. -/
theorem approvePayment_forbidden_witness :
    (approvePayment ApproveFaults.none "2026-02-02 10:00:00" sampleStore memberToken 1).2
        = Response.error 403 "Access denied" ∧
    (approvePayment ApproveFaults.none "2026-02-02 10:00:00" sampleStore memberToken 1).1
        = sampleStore :=
  have h := approvePayment_forbidden ApproveFaults.none "2026-02-02 10:00:00" sampleStore
    memberToken 1 (by decide) (by decide)
  ⟨h.1, h.2.1⟩

/-- C1, evaluated: the administrator approves payment 1 of the sample database
twice in a row. The first call confirms it, and the listing of pending
payments no longer shows it; the second call, on the payment already
confirmed, answers Payment approved again, appends a second Contribution and
adds the amount 500 to the member balance a second time (250 becomes 1250). -/
theorem approvePayment_twice_credits_twice :
    (approvePayment ApproveFaults.none "2026-02-02 10:00:00" sampleStore
        adminToken 1).1.pendingPayments.map (fun p => (p.id, p.status))
      = [(1, "confirmed")] ∧
    listPendingPayments false
        (approvePayment ApproveFaults.none "2026-02-02 10:00:00" sampleStore adminToken 1).1
        adminToken
      = Response.payments [] ∧
    (approvePayment ApproveFaults.none "2026-02-02 10:05:00"
        (approvePayment ApproveFaults.none "2026-02-02 10:00:00" sampleStore adminToken 1).1
        adminToken 1).2
      = Response.message "Payment approved" ∧
    (approvePayment ApproveFaults.none "2026-02-02 10:05:00"
        (approvePayment ApproveFaults.none "2026-02-02 10:00:00" sampleStore adminToken 1).1
        adminToken 1).1.users.map (fun u => (u.id, u.balance))
      = [(1, 14400), (3, 1250)] ∧
    (approvePayment ApproveFaults.none "2026-02-02 10:05:00"
        (approvePayment ApproveFaults.none "2026-02-02 10:00:00" sampleStore adminToken 1).1
        adminToken 1).1.contributions.map (fun c => (c.id, c.memberId, c.amount))
      = [(1, 1, 14400), (2, 3, 250), (3, 3, 500), (4, 3, 500)] := by
  decide

/-- C2, counterexample: on the database where the member has balance 0.1 and
payment 1 of amount 0.2 is pending, the administrator approves payment 1. The
stored balance is the double 1351079888211149 * 2^(-52), written
0.30000000000000004, which is not the old balance plus the amount. -/
theorem approvePayment_balance_rounds :
    fractionStore.pendingPayments.find? (fun p => p.id == 1)
      = some { paymentOne with amount := 0.2 } ∧
    fractionStore.users.find? (fun u => u.id == 3) = some memberTenth ∧
    (approvePayment ApproveFaults.none "2026-02-02 10:00:00" fractionStore adminToken 1).2
      = Response.message "Payment approved" ∧
    (approvePayment ApproveFaults.none "2026-02-02 10:00:00" fractionStore
        adminToken 1).1.users.map (fun u => (u.id, u.balance))
      = [(3, Double.finite 1351079888211149 (-52))] ∧
    (Double.finite 1351079888211149 (-52)).toRat
      ≠ memberTenth.balance.toRat + (0.2 : Double).toRat := by
  refine ⟨by decide, by decide, by decide, by decide, ?_⟩
  have hb : memberTenth.balance = (0.1 : Double) := rfl
  rw [hb, fraction_samples.1, fraction_samples.2.1]
  norm_num [Double.toRat]

/-- C2, amended: when payment P is found pending and its member M exists,
approval by a treasurer or admin answers Payment approved; P is then
confirmed, exactly one Contribution is appended, carrying the memberId,
amount, method, reference, proofPath and date of P with status confirmed, and
M has lastPayment P.date, status current and, as balance, the double sum of
the old balance and P.amount (rounded to the nearest double), which is the
old balance plus P.amount whenever that addition is exact. -/
theorem approvePayment_confirms (now : String) (s : Store) (user : ReqUser) (id : Nat)
    (P : PendingPayment) (M : User)
    (hrole : user.role = "admin" ∨ user.role = "treasurer")
    (hP : s.pendingPayments.find? (fun p => p.id == id) = some P)
    (_hpending : P.status = "pending")
    (hM : s.users.find? (fun u => u.id == P.memberId) = some M) :
    (approvePayment ApproveFaults.none now s user id).2
        = Response.message "Payment approved" ∧
    (approvePayment ApproveFaults.none now s user id).1.pendingPayments.find?
        (fun p => p.id == id)
      = some { P with status := "confirmed", confirmedBy := user.name,
                      confirmedDate := some now } ∧
    (∃ c : Contribution,
      (approvePayment ApproveFaults.none now s user id).1.contributions
          = s.contributions ++ [c] ∧
      c.memberId = P.memberId ∧ c.amount = P.amount ∧ c.method = P.method ∧
      c.reference = P.reference ∧ c.proofPath = P.proofPath ∧ c.date = P.date ∧
      c.status = "confirmed") ∧
    (∃ M' : User,
      (approvePayment ApproveFaults.none now s user id).1.users.find?
          (fun u => u.id == P.memberId) = some M' ∧
      M' = { M with balance := Double.add M.balance P.amount, lastPayment := some P.date,
                    status := "current" } ∧
      (AddExact M.balance P.amount →
        M'.balance.toRat = M.balance.toRat + P.amount.toRat)) := by
  rw [approvePayment_of_found now s user id P hrole hP]
  refine ⟨rfl, ?_, ?_, ?_⟩
  · have h := find_map_key (fun p : PendingPayment => p.id)
      (fun p => if p.id == id then
        { p with status := "confirmed", confirmedBy := user.name, confirmedDate := some now }
        else p)
      (by intro a; by_cases h : (a.id == id) = true <;> simp [h]) id s.pendingPayments
    have hid : P.id = id := by
      have := List.find?_some hP
      simpa using this
    simp only [updateUserBalance, insertContribution, updatePaymentStatus]
    rw [h, hP]
    simp [hid]
  · refine ⟨_, rfl, rfl, rfl, rfl, rfl, rfl, rfl, rfl⟩
  · have h := find_map_key (fun u : User => u.id)
      (fun u => if u.id == P.memberId then
        { u with balance := Double.add u.balance P.amount, lastPayment := some P.date,
                 status := "current" }
        else u)
      (by intro a; by_cases h : (a.id == P.memberId) = true <;> simp [h]) P.memberId s.users
    have hid : M.id = P.memberId := by
      have := List.find?_some hM
      simpa using this
    refine ⟨{ M with balance := Double.add M.balance P.amount, lastPayment := some P.date,
                     status := "current" }, ?_, rfl, fun hx => hx.2.2⟩
    simp only [updateUserBalance, insertContribution, updatePaymentStatus]
    rw [h, hM]
    simp [hid]

/-- Witness of the amended C2: the administrator approves payment 1 of the
sample database; the member balance 250 becomes 750, exactly 250 + 500. -/
theorem approvePayment_confirms_witness :
    (approvePayment ApproveFaults.none "2026-02-02 10:00:00" sampleStore adminToken 1).2
        = Response.message "Payment approved" ∧
    AddExact memberThabo.balance paymentOne.amount ∧
    (∃ M' : User,
      (approvePayment ApproveFaults.none "2026-02-02 10:00:00" sampleStore
          adminToken 1).1.users.find? (fun u => u.id == paymentOne.memberId) = some M' ∧
      M' = { memberThabo with balance := 750, lastPayment := some paymentOne.date,
                              status := "current" } ∧
      M'.balance.toRat = memberThabo.balance.toRat + paymentOne.amount.toRat) :=
  have hx : AddExact memberThabo.balance paymentOne.amount := by
    have hb : memberThabo.balance = 250 := rfl
    have ha : paymentOne.amount = 500 := rfl
    have hs : Double.add 250 500 = 750 := by decide
    rw [hb, ha]
    refine ⟨by decide, by decide, ?_⟩
    rw [hs, toRat_samples.2.1, toRat_samples.2.2.1, toRat_samples.2.2.2]
    norm_num
  have h := approvePayment_confirms "2026-02-02 10:00:00" sampleStore adminToken 1
    paymentOne memberThabo (Or.inl rfl) (by decide) rfl (by decide)
  ⟨h.1, hx,
    match h.2.2.2 with
    | ⟨M', h1, h2, h3⟩ => ⟨M', h1, by rw [h2]; decide, h3 hx⟩⟩

/-- C3, counterexample: two approvals that start from a reconciled database
and end in one that is not. On the sample database the balance update fails
after the Contribution insert: the member has contributions 250 and 500 and
balance 250. On the database with balance 0.1 all writes succeed, and the
balance stored for 0.1 + 0.2 is not the exact sum of the two contributions. -/
theorem approvePayment_breaks_reconciliation :
    Reconciled sampleStore ∧
    ¬ Reconciled
      (approvePayment balanceUpdateFails "2026-02-02 10:00:00" sampleStore adminToken 1).1 ∧
    Reconciled fractionStore ∧
    ¬ Reconciled
      (approvePayment ApproveFaults.none "2026-02-02 10:00:00" fractionStore adminToken 1).1 := by
  obtain ⟨t1, t2, t3, _⟩ := toRat_samples
  obtain ⟨f1, f2, f3⟩ := fraction_samples
  refine ⟨?_, ?_, ?_, ?_⟩
  · intro u hu
    simp only [sampleStore, List.mem_cons, List.mem_singleton, List.not_mem_nil,
      or_false] at hu
    rcases hu with rfl | rfl
    · refine ⟨by decide, by decide, ?_⟩
      simp [contributionTotal, sampleStore, seedAdmin, t1]
    · refine ⟨by decide, by decide, ?_⟩
      simp [contributionTotal, sampleStore, memberThabo, t2]
  · intro h
    have hc : (approvePayment balanceUpdateFails "2026-02-02 10:00:00" sampleStore
        adminToken 1).1.contributions = sampleStore.contributions ++
          [{ id := 3, memberId := 3, amount := 500, method := "EFT",
             reference := some "REF-1", proofPath := some "uploads/1-proof.png",
             date := "2026-02-01", recordedBy := Option.none, status := "confirmed",
             createdAt := "2026-02-02 10:00:00" }] := by decide
    have hm : memberThabo ∈ (approvePayment balanceUpdateFails "2026-02-02 10:00:00"
        sampleStore adminToken 1).1.users := by decide
    have h3 := (h memberThabo hm).2.2
    rw [contributionTotal, hc] at h3
    simp [sampleStore, memberThabo, t2, t3] at h3
  · intro u hu
    simp only [fractionStore, List.mem_singleton] at hu
    subst hu
    refine ⟨by decide, by decide, ?_⟩
    simp [contributionTotal, fractionStore, memberTenth, memberThabo]
  · intro h
    have hc : (approvePayment ApproveFaults.none "2026-02-02 10:00:00" fractionStore
        adminToken 1).1.contributions = fractionStore.contributions ++
          [{ id := 2, memberId := 3, amount := 0.2, method := "EFT",
             reference := some "REF-1", proofPath := some "uploads/1-proof.png",
             date := "2026-02-01", recordedBy := Option.none, status := "confirmed",
             createdAt := "2026-02-02 10:00:00" }] := by decide
    have hm : ({ memberThabo with balance := Double.finite 1351079888211149 (-52),
                                  lastPayment := some "2026-02-01", status := "current" }
        : User) ∈ (approvePayment ApproveFaults.none "2026-02-02 10:00:00"
        fractionStore adminToken 1).1.users := by decide
    have h3 := (h _ hm).2.2
    rw [contributionTotal, hc] at h3
    simp only [fractionStore, memberThabo, f1, f2] at h3
    norm_num [Double.toRat] at h3

/-- C3, amended: if every member balance equals the exact sum of the amounts of
that member's Contribution rows before an approval call, it does so after the
call, for every caller role and payment id, provided the balance update does
not fail once the Contribution insert has succeeded and, when the three
writes run, the double addition of the payment amount to the balance of the
member is exact. Calls that are refused, that find no payment, or whose
payment update or Contribution insert fails are covered. -/
theorem approvePayment_reconciled (f : ApproveFaults) (now : String) (s : Store)
    (user : ReqUser) (id : Nat) (h : Reconciled s)
    (hstop : f.updatePayment = false → f.insertContribution = false → f.updateUser = false)
    (hexact : ∀ P : PendingPayment, (user.role = "admin" ∨ user.role = "treasurer") →
      getPayment f.selectPayment s id = some P →
      f.updatePayment = false → f.insertContribution = false →
      ∀ u ∈ s.users, u.id = P.memberId → AddExact u.balance P.amount) :
    Reconciled (approvePayment f now s user id).1 := by
  by_cases hrole : user.role = "admin" ∨ user.role = "treasurer"
  · rw [approvePayment_of_approver f now s user id hrole]
    cases hget : getPayment f.selectPayment s id with
    | none => exact h
    | some P =>
      have hx := hexact P hrole hget
      obtain ⟨b0, b1, b2, b3⟩ := f
      cases b1
      · cases b2
        · have hb3 : b3 = false := hstop rfl rfl
          subst hb3
          simp only [runSerialized_ok]
          exact reconciled_credit s "confirmed" user.name now id P h (hx rfl rfl)
        · simp only [runSerialized, dbRun, Bool.false_eq_true, if_false, if_true]
          exact reconciled_congr s _ rfl rfl h
      · simp only [runSerialized, dbRun, if_true]
        exact h
  · have h1 : user.role ≠ "admin" := fun e => hrole (Or.inl e)
    have h2 : user.role ≠ "treasurer" := fun e => hrole (Or.inr e)
    rw [approvePayment_of_other f now s user id h1 h2]
    exact h

/-- Witness of the amended C3: the sample database is reconciled, adding 500 to
the balance 250 of the member is exact, and the database stays reconciled when
the administrator approves payment 1 with all writes succeeding. -/
theorem approvePayment_reconciled_witness :
    Reconciled sampleStore ∧
    Reconciled
      (approvePayment ApproveFaults.none "2026-02-02 10:00:00" sampleStore adminToken 1).1 :=
  have h0 : Reconciled sampleStore := by
    obtain ⟨t1, t2, _, _⟩ := toRat_samples
    intro u hu
    simp only [sampleStore, List.mem_cons, List.mem_singleton, List.not_mem_nil,
      or_false] at hu
    rcases hu with rfl | rfl
    · refine ⟨by decide, by decide, ?_⟩
      simp [contributionTotal, sampleStore, seedAdmin, t1]
    · refine ⟨by decide, by decide, ?_⟩
      simp [contributionTotal, sampleStore, memberThabo, t2]
  ⟨h0, approvePayment_reconciled ApproveFaults.none "2026-02-02 10:00:00" sampleStore
    adminToken 1 h0 (fun _ _ => rfl) (by
      intro P _ hget _ _ u hu hid
      have hP : P = paymentOne := by
        have : getPayment ApproveFaults.none.selectPayment sampleStore 1 = some paymentOne := by
          decide
        rw [this] at hget
        exact (Option.some.inj hget).symm
      subst hP
      have hu2 : u = memberThabo := by
        simp only [sampleStore, List.mem_cons, List.mem_singleton, List.not_mem_nil,
          or_false] at hu
        rcases hu with rfl | rfl
        · exact absurd hid (by decide)
        · rfl
      subst hu2
      obtain ⟨_, t2, t3, t4⟩ := toRat_samples
      have hs : Double.add 250 500 = 750 := by decide
      refine ⟨by decide, by decide, ?_⟩
      show (Double.add 250 500).toRat = (250 : Double).toRat + (500 : Double).toRat
      rw [hs, t2, t3, t4]
      norm_num)⟩

/-- C10, evaluated: the seeded administrator logs in and approves payment 1
with the token login issued. The token payload has no name, so the payment is
confirmed with confirmedBy NULL and the appended Contribution (id 3) has
recordedBy NULL: no approver identity is recorded. -/
theorem approvePayment_records_no_identity :
    login acceptPassword sampleStore "admin@masonko.com" "admin123"
      = Response.session adminToken
          { id := 1, name := "Admin User", email := "admin@masonko.com", role := "admin",
            tier := 3, shares := 3, balance := 14400 } ∧
    adminToken = { id := 1, role := "admin", name := Option.none } ∧
    (approvePayment ApproveFaults.none "2026-02-02 10:00:00" sampleStore
        adminToken 1).2 = Response.message "Payment approved" ∧
    (approvePayment ApproveFaults.none "2026-02-02 10:00:00" sampleStore
        adminToken 1).1.pendingPayments.map (fun p => (p.id, p.status, p.confirmedBy))
      = [(1, "confirmed", Option.none)] ∧
    (approvePayment ApproveFaults.none "2026-02-02 10:00:00" sampleStore
        adminToken 1).1.contributions.map (fun c => (c.id, c.recordedBy))
      = [(1, some "Admin User"), (2, some "Admin User"), (3, Option.none)] := by
  decide

/-- C4, counterexample: on the sample database the Contribution insert fails
after the payment update has succeeded. The caller is still answered Payment
approved, and the database is not the one before the call: payment 1 is
confirmed, while no Contribution was added and no balance changed. -/
theorem approvePayment_not_atomic :
    contributionInsertFails.insertContribution = true ∧
    (approvePayment contributionInsertFails "2026-02-02 10:00:00" sampleStore
        adminToken 1).2 = Response.message "Payment approved" ∧
    (approvePayment contributionInsertFails "2026-02-02 10:00:00" sampleStore
        adminToken 1).1 ≠ sampleStore ∧
    (approvePayment contributionInsertFails "2026-02-02 10:00:00" sampleStore
        adminToken 1).1.pendingPayments.map (fun p => (p.id, p.status))
      = [(1, "confirmed")] ∧
    (approvePayment contributionInsertFails "2026-02-02 10:00:00" sampleStore
        adminToken 1).1.contributions = sampleStore.contributions ∧
    (approvePayment contributionInsertFails "2026-02-02 10:00:00" sampleStore
        adminToken 1).1.users = sampleStore.users := by
  decide

/-- C4, amended: an approval is not atomic. Its three writes run in order, each
committed on its own, and the first one that fails ends the sequence with
nothing rolled back. A failed payment update leaves the database as before
the call. A failed Contribution insert leaves the payment table as the update
made it (the payment confirmed) with the contributions and users tables as
before the call. A failed balance update leaves the payment table and the
contributions table as in an approval whose writes all succeed, with the
users table as before the call. -/
theorem approvePayment_writes_in_order (f : ApproveFaults) (now : String) (s : Store)
    (user : ReqUser) (id : Nat) :
    (f.updatePayment = true → (approvePayment f now s user id).1 = s) ∧
    (f.updatePayment = false → f.insertContribution = true →
      (approvePayment f now s user id).1.pendingPayments
        = (approvePayment f.writesOk now s user id).1.pendingPayments ∧
      (approvePayment f now s user id).1.contributions = s.contributions ∧
      (approvePayment f now s user id).1.users = s.users) ∧
    (f.updatePayment = false → f.insertContribution = false → f.updateUser = true →
      (approvePayment f now s user id).1.pendingPayments
        = (approvePayment f.writesOk now s user id).1.pendingPayments ∧
      (approvePayment f now s user id).1.contributions
        = (approvePayment f.writesOk now s user id).1.contributions ∧
      (approvePayment f now s user id).1.users = s.users) := by
  by_cases hrole : user.role = "admin" ∨ user.role = "treasurer"
  · rw [approvePayment_of_approver f now s user id hrole,
      approvePayment_of_approver f.writesOk now s user id hrole]
    have hsel : f.writesOk.selectPayment = f.selectPayment := rfl
    rw [hsel]
    cases hget : getPayment f.selectPayment s id with
    | none => simp
    | some P =>
      obtain ⟨b0, b1, b2, b3⟩ := f
      cases b1 <;> cases b2 <;> cases b3 <;>
        simp [runSerialized, dbRun, ApproveFaults.writesOk, updatePaymentStatus,
          insertContribution, updateUserBalance]
  · have h1 : user.role ≠ "admin" := fun e => hrole (Or.inl e)
    have h2 : user.role ≠ "treasurer" := fun e => hrole (Or.inr e)
    rw [approvePayment_of_other f now s user id h1 h2,
      approvePayment_of_other f.writesOk now s user id h1 h2]
    simp

/-- Witness of the amended C4, on the sample database with the administrator
approving payment 1: a failed payment update leaves the database as it was; a
failed Contribution insert leaves payment 1 confirmed with contributions and
balances as they were; a failed balance update leaves payment 1 confirmed and
Contribution 3 appended with balances as they were. -/
theorem approvePayment_writes_in_order_witness :
    (approvePayment paymentUpdateFails "2026-02-02 10:00:00" sampleStore adminToken 1).1
      = sampleStore ∧
    ((approvePayment contributionInsertFails "2026-02-02 10:00:00" sampleStore
        adminToken 1).1.pendingPayments
      = (approvePayment contributionInsertFails.writesOk "2026-02-02 10:00:00" sampleStore
          adminToken 1).1.pendingPayments ∧
     (approvePayment contributionInsertFails "2026-02-02 10:00:00" sampleStore
        adminToken 1).1.contributions = sampleStore.contributions ∧
     (approvePayment contributionInsertFails "2026-02-02 10:00:00" sampleStore
        adminToken 1).1.users = sampleStore.users) ∧
    ((approvePayment balanceUpdateFails "2026-02-02 10:00:00" sampleStore
        adminToken 1).1.pendingPayments
      = (approvePayment balanceUpdateFails.writesOk "2026-02-02 10:00:00" sampleStore
          adminToken 1).1.pendingPayments ∧
     (approvePayment balanceUpdateFails "2026-02-02 10:00:00" sampleStore
        adminToken 1).1.contributions
      = (approvePayment balanceUpdateFails.writesOk "2026-02-02 10:00:00" sampleStore
          adminToken 1).1.contributions ∧
     (approvePayment balanceUpdateFails "2026-02-02 10:00:00" sampleStore
        adminToken 1).1.users = sampleStore.users) ∧
    (approvePayment balanceUpdateFails "2026-02-02 10:00:00" sampleStore
        adminToken 1).1.pendingPayments.map (fun p => (p.id, p.status))
      = [(1, "confirmed")] ∧
    (approvePayment balanceUpdateFails "2026-02-02 10:00:00" sampleStore
        adminToken 1).1.contributions.map (fun c => (c.id, c.memberId, c.amount))
      = [(1, 1, 14400), (2, 3, 250), (3, 3, 500)] :=
  ⟨(approvePayment_writes_in_order paymentUpdateFails "2026-02-02 10:00:00" sampleStore
      adminToken 1).1 rfl,
   (approvePayment_writes_in_order contributionInsertFails "2026-02-02 10:00:00" sampleStore
      adminToken 1).2.1 rfl rfl,
   (approvePayment_writes_in_order balanceUpdateFails "2026-02-02 10:00:00" sampleStore
      adminToken 1).2.2 rfl rfl rfl,
   by decide, by decide⟩

/-- C6: submitting a payment never changes the users table (so no balance) nor
the contributions table, whatever the input and whether or not the insert
fails. When the caller is a row of the users table (ids being its key) and
the insert does not fail, exactly one PendingPayment is appended, in state
pending, with the caller id and the submitted amount, method, reference, date,
notes and proof path, and the rows already there are unchanged. -/
theorem submitPayment_frame (fail : Bool) (now : String) (s : Store) (user : ReqUser)
    (body : PaymentBody) (file : Option String) :
    (submitPayment fail now s user body file).1.users = s.users ∧
    (submitPayment fail now s user body file).1.contributions = s.contributions ∧
    (UsersKeyed s → (∃ u ∈ s.users, u.id = user.id) → fail = false →
      ∃ p : PendingPayment,
        (submitPayment fail now s user body file).1.pendingPayments
          = s.pendingPayments ++ [p] ∧
        p.status = "pending" ∧ p.memberId = user.id ∧ p.amount = body.amount ∧
        p.method = body.method ∧ p.reference = body.reference ∧ p.date = body.date ∧
        p.notes = body.notes ∧ p.proofPath = file) := by
  refine ⟨?_, ?_, ?_⟩
  · cases fail
    · exact (foldl_insertPendingPayment_frame body file now _ s).1
    · rfl
  · cases fail
    · exact (foldl_insertPendingPayment_frame body file now _ s).2.1
    · rfl
  · rintro hk ⟨u, hu, hid⟩ rfl
    rw [submitPayment_of_member now s user body file u hk hu hid]
    exact ⟨_, rfl, rfl, hid, rfl, rfl, rfl, rfl, rfl, rfl⟩

/-- Witness of C6: the member submits a payment of 300 on the sample database. -/
theorem submitPayment_frame_witness :
    ∃ p : PendingPayment,
      (submitPayment false "2026-02-03 09:00:00" sampleStore memberToken
          { amount := 300, method := "EFT", reference := some "REF-2", date := "2026-02-03",
            notes := some "February" } (some "uploads/2-proof.png")).1.pendingPayments
        = sampleStore.pendingPayments ++ [p] ∧
      p.status = "pending" ∧ p.memberId = memberToken.id ∧ p.amount = 300 ∧
      p.method = "EFT" ∧ p.reference = some "REF-2" ∧ p.date = "2026-02-03" ∧
      p.notes = some "February" ∧ p.proofPath = some "uploads/2-proof.png" :=
  (submitPayment_frame false "2026-02-03 09:00:00" sampleStore memberToken
    { amount := 300, method := "EFT", reference := some "REF-2", date := "2026-02-03",
      notes := some "February" } (some "uploads/2-proof.png")).2.2
    (by decide) ⟨memberThabo, by decide, rfl⟩ rfl

/-- C7, counterexample: the member submits amount -5 with an empty method on the
sample database. The call answers Payment submitted with row id 2, the
database is changed, a pending payment with amount -5 and method empty is
stored, and approving it lowers the member balance from 250 to 245. -/
theorem submitPayment_accepts_bad_input :
    badBody.amount ≤ 0 ∧ badBody.method = "" ∧
    (submitPayment false "2026-02-03 09:00:00" sampleStore memberToken badBody
        Option.none).2 = Response.created "Payment submitted" 2 ∧
    (submitPayment false "2026-02-03 09:00:00" sampleStore memberToken badBody
        Option.none).1 ≠ sampleStore ∧
    (submitPayment false "2026-02-03 09:00:00" sampleStore memberToken badBody
        Option.none).1.pendingPayments.map (fun p => (p.id, p.amount, p.method, p.status))
      = [(1, 500, "EFT", "pending"), (2, -5, "", "pending")] ∧
    (approvePayment ApproveFaults.none "2026-02-04 10:00:00"
        (submitPayment false "2026-02-03 09:00:00" sampleStore memberToken badBody
          Option.none).1 adminToken 2).1.users.map (fun u => (u.id, u.balance))
      = [(1, 14400), (3, 245)] := by
  decide

/-- C7, amended: a submission with amount <= 0 or with an empty method is not
validated. When the caller is a row of the users table (ids being its key)
and the insert does not fail, the call answers Payment submitted and appends
one PendingPayment in state pending carrying that amount and that method;
the users and contributions tables are unchanged. -/
theorem submitPayment_unvalidated (now : String) (s : Store) (user : ReqUser)
    (body : PaymentBody) (file : Option String) (u : User)
    (_hbad : body.amount ≤ 0 ∨ body.method = "")
    (hk : UsersKeyed s) (hu : u ∈ s.users) (hid : u.id = user.id) :
    (∃ rowId, (submitPayment false now s user body file).2
        = Response.created "Payment submitted" rowId) ∧
    (∃ p : PendingPayment,
      (submitPayment false now s user body file).1.pendingPayments
        = s.pendingPayments ++ [p] ∧
      p.status = "pending" ∧ p.amount = body.amount ∧ p.method = body.method) ∧
    (submitPayment false now s user body file).1.users = s.users ∧
    (submitPayment false now s user body file).1.contributions = s.contributions := by
  rw [submitPayment_of_member now s user body file u hk hu hid]
  exact ⟨⟨_, rfl⟩, ⟨_, rfl, rfl, rfl, rfl⟩, rfl, rfl⟩

/-- Witness of the amended C7: the submission of amount -5 with an empty method
by the member on the sample database. -/
theorem submitPayment_unvalidated_witness :
    ∃ p : PendingPayment,
      (submitPayment false "2026-02-03 09:00:00" sampleStore memberToken badBody
          Option.none).1.pendingPayments = sampleStore.pendingPayments ++ [p] ∧
      p.status = "pending" ∧ p.amount = badBody.amount ∧ p.method = badBody.method :=
  (submitPayment_unvalidated "2026-02-03 09:00:00" sampleStore memberToken badBody
    Option.none memberThabo (Or.inr rfl) (by decide) (by decide) rfl).2.1

/-- C8, counterexample: the member applies for a loan of 200 over 13 weeks on
the sample database. The exact value of 200 * (1 + (10/100) * (13/52)) is 205,
but the outstanding stored is the double 7212796278210559 * 2^(-45), written
204.99999999999997. -/
theorem applyForLoan_outstanding_rounds :
    loanBody13.amount.toRat = 200 ∧ loanBody13.term.toRat = 13 ∧
    (applyForLoan false "2026-02-05 09:00:00" "2026-02-05" sampleStore memberToken
        loanBody13).1.loans.map (fun l => (l.id, l.status, l.interest, l.outstanding))
      = [(1, "pending", 10, Double.finite 7212796278210559 (-45))] ∧
    (Double.finite 7212796278210559 (-45)).toRat
      ≠ (200 : ℚ) * (1 + (10 / 100) * (13 / 52)) := by
  have h1 : loanBody13.amount = Double.finite 25 3 := by decide
  have h2 : loanBody13.term = Double.finite 13 0 := by decide
  refine ⟨?_, ?_, by decide, ?_⟩
  · rw [h1]; norm_num [Double.toRat]
  · rw [h2]; norm_num [Double.toRat]
  · norm_num [Double.toRat]

/-- C8, amended: for every amount and term, a loan application whose insert
succeeds answers Loan application submitted and appends exactly one Loan, for
the caller, in state pending, with interest 10 and with outstanding the value
of amount * (1 + (10/100) * (term/52)) in double arithmetic, each of the two
divisions, the inner product, the sum and the outer product rounded to the
nearest double. For amount 1000 this is exactly 1100 at term 52 and exactly
1050 at term 26. -/
theorem applyForLoan_outstanding (now today : String) (s : Store) (user : ReqUser)
    (body : LoanBody) :
    (∃ rowId, (applyForLoan false now today s user body).2
        = Response.created "Loan application submitted" rowId) ∧
    (∃ l : Loan,
      (applyForLoan false now today s user body).1.loans = s.loans ++ [l] ∧
      l.memberId = user.id ∧ l.amount = body.amount ∧ l.term = body.term ∧
      l.status = "pending" ∧ l.interest = 10 ∧
      l.outstanding = Double.mul body.amount
        (Double.add 1 (Double.mul (Double.div 10 100) (Double.div body.term 52)))) ∧
    (∃ l : Loan,
      (applyForLoan false now today s user
        { amount := 1000, term := 52, applicationDetails := body.applicationDetails }).1.loans
        = s.loans ++ [l] ∧ l.outstanding = 1100 ∧ l.outstanding.toRat = 1100) ∧
    (∃ l : Loan,
      (applyForLoan false now today s user
        { amount := 1000, term := 26, applicationDetails := body.applicationDetails }).1.loans
        = s.loans ++ [l] ∧ l.outstanding = 1050 ∧ l.outstanding.toRat = 1050) := by
  have e52 : Double.mul 1000
      (Double.add 1 (Double.mul (Double.div 10 100) (Double.div 52 52)))
      = Double.finite 275 2 := by decide
  have e26 : Double.mul 1000
      (Double.add 1 (Double.mul (Double.div 10 100) (Double.div 26 52)))
      = Double.finite 525 1 := by decide
  have n52 : (1100 : Double) = Double.finite 275 2 := by decide
  have n26 : (1050 : Double) = Double.finite 525 1 := by decide
  refine ⟨⟨_, rfl⟩, ⟨_, applyForLoan_loans now today s user body,
    rfl, rfl, rfl, rfl, rfl, rfl⟩, ⟨_, applyForLoan_loans now today s user _, ?_, ?_⟩,
    ⟨_, applyForLoan_loans now today s user _, ?_, ?_⟩⟩
  · show Double.mul 1000 (Double.add 1 (Double.mul (Double.div 10 100) (Double.div 52 52)))
      = 1100
    rw [e52, n52]
  · show (Double.mul 1000
      (Double.add 1 (Double.mul (Double.div 10 100) (Double.div 52 52)))).toRat = 1100
    rw [e52]; norm_num [Double.toRat]
  · show Double.mul 1000 (Double.add 1 (Double.mul (Double.div 10 100) (Double.div 26 52)))
      = 1050
    rw [e26, n26]
  · show (Double.mul 1000
      (Double.add 1 (Double.mul (Double.div 10 100) (Double.div 26 52)))).toRat = 1050
    rw [e26]; norm_num [Double.toRat]

/-- C9: listing loans returns all Loan rows to admin and loan-officer callers
and exactly the rows with memberId equal to the caller id to every other role,
treasurer included. So the loan a member A applies for is returned to A and to
every admin or loan-officer caller, and is not returned to another caller B
that is neither admin nor loan-officer. -/
theorem listLoans_scoping (s : Store) (user : ReqUser) :
    (user.role = "admin" ∨ user.role = "loan-officer" →
      listLoans false s user = Response.loans s.loans) ∧
    (user.role ≠ "admin" → user.role ≠ "loan-officer" →
      listLoans false s user
        = Response.loans (s.loans.filter (fun l => l.memberId == user.id))) ∧
    (∀ (now today : String) (body : LoanBody) (b c : ReqUser),
      b.id ≠ user.id → b.role ≠ "admin" → b.role ≠ "loan-officer" →
      (c.role = "admin" ∨ c.role = "loan-officer") →
      ∃ l : Loan,
        (applyForLoan false now today s user body).1.loans = s.loans ++ [l] ∧
        l.memberId = user.id ∧
        (∃ rows, listLoans false (applyForLoan false now today s user body).1 user
          = Response.loans rows ∧ l ∈ rows) ∧
        (∃ rows, listLoans false (applyForLoan false now today s user body).1 c
          = Response.loans rows ∧ l ∈ rows) ∧
        (∃ rows, listLoans false (applyForLoan false now today s user body).1 b
          = Response.loans rows ∧ l ∉ rows)) := by
  have hall : ∀ (t : Store) (v : ReqUser), (v.role = "admin" ∨ v.role = "loan-officer") →
      listLoans false t v = Response.loans t.loans := by
    intro t v h
    rcases h with h | h <;> simp [listLoans, h]
  have hown : ∀ (t : Store) (v : ReqUser), v.role ≠ "admin" → v.role ≠ "loan-officer" →
      listLoans false t v
        = Response.loans (t.loans.filter (fun l => l.memberId == v.id)) := by
    intro t v h1 h2
    simp [listLoans, h1, h2]
  refine ⟨hall s user, hown s user, ?_⟩
  intro now today body b c hb hb1 hb2 hc
  refine ⟨_, applyForLoan_loans now today s user body, rfl, ?_, ?_, ?_⟩
  · by_cases hp : user.role = "admin" ∨ user.role = "loan-officer"
    · exact ⟨_, hall _ user hp, by rw [applyForLoan_loans]; simp⟩
    · have h1 : user.role ≠ "admin" := fun e => hp (Or.inl e)
      have h2 : user.role ≠ "loan-officer" := fun e => hp (Or.inr e)
      exact ⟨_, hown _ user h1 h2, by rw [applyForLoan_loans]; simp⟩
  · exact ⟨_, hall _ c hc, by rw [applyForLoan_loans]; simp⟩
  · refine ⟨_, hown _ b hb1 hb2, ?_⟩
    simp only [List.mem_filter, not_and]
    intro _ hmem
    simp at hmem
    exact hb hmem.symm

/-- Witness of C9: on the sample database the member applies for a loan; the
member and a loan officer get it back, a second member does not, and a
treasurer gets only the loans with its own id, here none. -/
theorem listLoans_scoping_witness :
    listLoans false sampleStore adminToken = Response.loans sampleStore.loans ∧
    listLoans false (applyForLoan false "2026-02-05 09:00:00" "2026-02-05" sampleStore
        memberToken loanBody26).1 treasurerToken
      = Response.loans [] ∧
    (∃ l : Loan,
      (applyForLoan false "2026-02-05 09:00:00" "2026-02-05" sampleStore memberToken
        loanBody26).1.loans = sampleStore.loans ++ [l] ∧
      l.memberId = memberToken.id ∧
      (∃ rows, listLoans false (applyForLoan false "2026-02-05 09:00:00" "2026-02-05"
          sampleStore memberToken loanBody26).1 memberToken
        = Response.loans rows ∧ l ∈ rows) ∧
      (∃ rows, listLoans false (applyForLoan false "2026-02-05 09:00:00" "2026-02-05"
          sampleStore memberToken loanBody26).1 officerToken
        = Response.loans rows ∧ l ∈ rows) ∧
      (∃ rows, listLoans false (applyForLoan false "2026-02-05 09:00:00" "2026-02-05"
          sampleStore memberToken loanBody26).1 otherToken
        = Response.loans rows ∧ l ∉ rows)) :=
  ⟨(listLoans_scoping sampleStore adminToken).1 (Or.inl rfl),
   by
    rw [(listLoans_scoping _ treasurerToken).2.1 (by decide) (by decide)]
    simp [applyForLoan, insertLoan, sampleStore, treasurerToken, memberToken, jwtSign,
      memberThabo],
   (listLoans_scoping sampleStore memberToken).2.2 "2026-02-05 09:00:00" "2026-02-05"
    loanBody26 otherToken officerToken (by decide) (by decide) (by decide) (Or.inr rfl)⟩

end Stokvel
